import Mathlib

/-
Verification development for the gen type-graph builder.

The program under study extracts a canonical model ("Universe") of a Go
program's packages and types.  Its data model lives in types/types.go and
types/builtin.go; the algorithmic core (package resolution, type checking
coordination and the recursive type-graph walker walkType) lives in
parser/builder.go and parser/parser.go.

Shallow embedding conventions:
  - Go pointers to Type nodes are modelled as an arena: a Universe carries
    a list of (node id, node) pairs plus a fresh-id counter.  Two Go
    pointers are reference-equal exactly when the two ids are equal.
  - Go maps are modelled as association lists with replace-on-insert.
  - Go strings are Lean Strings; the handful of string operations the
    source uses (HasPrefix, Split, TrimRight, Join, Index) are implemented
    on the underlying character lists so that every definition evaluates
    by kernel reduction.
  - The recursive walker walkType is given explicit fuel; the source
    relies on the Unknown-marker memoization for termination, which the
    fueled version makes checkable.
-/

/-! ## Kind (types/types.go, const block at the bottom) -/

inductive Kind where
  | Builtin
  | Struct
  | Map
  | Slice
  | Pointer
  | Alias
  | Interface
  | Array
  | Chan
  | Func
  | DeclarationOf
  | Unknown
  | Unsupported
  | Protobuf
deriving DecidableEq, Repr

/-! ## Name (types/types.go) -/

structure Name where
  package : String
  name : String
  path : String
deriving DecidableEq, Repr

/-! ## Arena nodes: Type, Member, Signature (types/types.go) -/

/-- A node id in the arena; models a Go pointer to a types.Type value. -/
abbrev NodeId := Nat

structure Member where
  name : String
  embedded : Bool
  commentLines : List String
  tags : String
  type : NodeId
deriving DecidableEq, Repr

structure Sig where
  receiver : Option NodeId
  parameters : List NodeId
  results : List NodeId
  variadic : Bool
  commentLines : List String
deriving DecidableEq, Repr

structure TypeNode where
  name : Name
  kind : Kind
  commentLines : List String
  secondClosestCommentLines : List String
  members : List Member
  elem : Option NodeId
  key : Option NodeId
  underlying : Option NodeId
  methods : List (String × NodeId)
  signature : Option Sig
deriving DecidableEq, Repr

/-- Zero value of a freshly allocated types.Type in Go (all fields zero). -/
def defNode : TypeNode :=
  ⟨⟨"", "", ""⟩, Kind.Unknown, [], [], [], none, none, none, [], none⟩

/-! ## Package and Universe (types/types.go) -/

structure Package where
  path : String
  sourcePath : String
  name : String
  docComments : List String
  comments : List String
  types : List (String × NodeId)
  functions : List (String × NodeId)
  vars : List (String × NodeId)
  consts : List (String × NodeId)
  imports : List String
deriving DecidableEq, Repr

/-- The zero Package created by Universe.Package (types/types.go, lines 73-80). -/
def emptyPackage (path : String) : Package :=
  ⟨path, "", "", [], [], [], [], [], [], []⟩

/-- The Universe: package map plus the node arena holding every types.Type
value ever allocated (the Go heap restricted to Type values).  nextId is the
next unused arena id. -/
structure Universe where
  nextId : Nat
  nodes : List (Nat × TypeNode)
  packages : List (String × Package)
deriving DecidableEq, Repr

/-! ## Association-list helpers (model of Go maps) -/

def lookupA {α : Type} : List (String × α) → String → Option α
  | [], _ => none
  | (k, v) :: rest, q => if q = k then some v else lookupA rest q

def insertA {α : Type} : List (String × α) → String → α → List (String × α)
  | [], k, v => [(k, v)]
  | (k0, v0) :: rest, k, v =>
    if k = k0 then (k, v) :: rest else (k0, v0) :: insertA rest k v

def lookupN : List (Nat × TypeNode) → Nat → Option TypeNode
  | [], _ => none
  | (k, v) :: rest, q => if q = k then some v else lookupN rest q

def updateN : List (Nat × TypeNode) → Nat → (TypeNode → TypeNode) → List (Nat × TypeNode)
  | [], _, _ => []
  | (k, v) :: rest, q, f => if q = k then (k, f v) :: rest else (k, v) :: updateN rest q f

def getNode (u : Universe) (i : Nat) : TypeNode :=
  (lookupN u.nodes i).getD defNode

def setNode (u : Universe) (i : Nat) (f : TypeNode → TypeNode) : Universe :=
  { u with nodes := updateN u.nodes i f }

def updatePackage (u : Universe) (path : String) (f : Package → Package) : Universe :=
  match lookupA u.packages path with
  | none => u
  | some p => { u with packages := insertA u.packages path (f p) }

/-! ## Builtins (types/builtin.go)

The fifteen builtin Type values are global singletons in Go; they are
pre-seeded into the arena at ids 0..14 in declaration order, and the
builtins.Types map is the association list below.  Note int8 and uint8 both
map to the byte node, exactly as in the source. -/

def bNode (s : String) : TypeNode :=
  { defNode with name := ⟨"", s, ""⟩, kind := Kind.Builtin }

def builtinsTypes : List (String × NodeId) :=
  [("bool", 13), ("string", 0), ("int", 4), ("int64", 1), ("int32", 2),
   ("int16", 3), ("int8", 14), ("uint", 8), ("uint64", 5), ("uint32", 6),
   ("uint16", 7), ("uint8", 14), ("uintptr", 9), ("byte", 14),
   ("float", 12), ("float64", 10), ("float32", 11)]

/-- A Universe with no packages; the arena already holds the fifteen global
builtin nodes (String=0, Int64=1, Int32=2, Int16=3, Int=4, Uint64=5,
Uint32=6, Uint16=7, Uint=8, Uintptr=9, Float64=10, Float32=11, Float=12,
Bool=13, Byte=14). -/
def initUniverse : Universe :=
  { nextId := 15,
    nodes := [(14, bNode "byte"), (13, bNode "bool"), (12, bNode "float"),
              (11, bNode "float32"), (10, bNode "float64"), (9, bNode "uintptr"),
              (8, bNode "uint"), (7, bNode "uint16"), (6, bNode "uint32"),
              (5, bNode "uint64"), (4, bNode "int"), (3, bNode "int16"),
              (2, bNode "int32"), (1, bNode "int64"), (0, bNode "string")],
    packages := [] }

/-! ## Get-or-create accessors (types/types.go)

uPackage models Universe.Package, uType models Universe.Type (which is
Package.Type on the package of the name), and likewise uFunction,
uVariable, uConstant.  Each returns the node (or package) together with
the possibly-extended Universe. -/

/-- Universe.Package (types/types.go, lines 69-83). -/
def uPackage (u : Universe) (path : String) : Package × Universe :=
  match lookupA u.packages path with
  | some p => (p, u)
  | none =>
    let p := emptyPackage path
    (p, { u with packages := insertA u.packages path p })

/-- Universe.Type / Package.Type (types/types.go, lines 28-30 and 135-149):
lookup in the package's Types map; for the empty-path package consult the
shared builtins table; otherwise allocate a fresh Unknown marker. -/
def uType (u0 : Universe) (n : Name) : NodeId × Universe :=
  let pu := uPackage u0 n.package
  let p := pu.1
  let u := pu.2
  match lookupA p.types n.name with
  | some i => (i, u)
  | none =>
    match (if p.path = "" then lookupA builtinsTypes n.name else none) with
    | some i =>
      let p2 := { p with types := insertA p.types n.name i }
      (i, { u with packages := insertA u.packages n.package p2 })
    | none =>
      let i := u.nextId
      let node := { defNode with name := ⟨p.path, n.name, ""⟩ }
      let p2 := { p with types := insertA p.types n.name i }
      (i, { u with nextId := i + 1, nodes := (i, node) :: u.nodes,
                   packages := insertA u.packages n.package p2 })

/-- Universe.Function / Package.Function (types/types.go, lines 155-163):
a missing function is allocated with Kind = DeclarationOf. -/
def uFunction (u0 : Universe) (n : Name) : NodeId × Universe :=
  let pu := uPackage u0 n.package
  let p := pu.1
  let u := pu.2
  match lookupA p.functions n.name with
  | some i => (i, u)
  | none =>
    let i := u.nextId
    let node := { defNode with name := ⟨p.path, n.name, ""⟩, kind := Kind.DeclarationOf }
    let p2 := { p with functions := insertA p.functions n.name i }
    (i, { u with nextId := i + 1, nodes := (i, node) :: u.nodes,
                 packages := insertA u.packages n.package p2 })

/-- Universe.Variable / Package.Variable (types/types.go, lines 169-177). -/
def uVariable (u0 : Universe) (n : Name) : NodeId × Universe :=
  let pu := uPackage u0 n.package
  let p := pu.1
  let u := pu.2
  match lookupA p.vars n.name with
  | some i => (i, u)
  | none =>
    let i := u.nextId
    let node := { defNode with name := ⟨p.path, n.name, ""⟩, kind := Kind.DeclarationOf }
    let p2 := { p with vars := insertA p.vars n.name i }
    (i, { u with nextId := i + 1, nodes := (i, node) :: u.nodes,
                 packages := insertA u.packages n.package p2 })

/-- Universe.Constant / Package.Constant (types/types.go, lines 183-191). -/
def uConstant (u0 : Universe) (n : Name) : NodeId × Universe :=
  let pu := uPackage u0 n.package
  let p := pu.1
  let u := pu.2
  match lookupA p.consts n.name with
  | some i => (i, u)
  | none =>
    let i := u.nextId
    let node := { defNode with name := ⟨p.path, n.name, ""⟩, kind := Kind.DeclarationOf }
    let p2 := { p with consts := insertA p.consts n.name i }
    (i, { u with nextId := i + 1, nodes := (i, node) :: u.nodes,
                 packages := insertA u.packages n.package p2 })

/-- Lookup-only variant: the node currently registered for a Name, if any. -/
def findTypeId (u : Universe) (n : Name) : Option NodeId :=
  match lookupA u.packages n.package with
  | some p => lookupA p.types n.name
  | none => none

/-! ## String helpers (strings package operations used by parser/parser.go)

All operations work on the character list underlying a String so that they
evaluate by kernel reduction. -/

def charPre : List Char → List Char → Bool
  | [], _ => true
  | _ :: _, [] => false
  | a :: as, b :: bs => if a = b then charPre as bs else false

/-- strings.HasPrefix. -/
def goStartsWith (s p : String) : Bool := charPre p.data s.data

/-- strings.Split on a single character (split never returns an empty list). -/
def splitCharList (c : Char) : List Char → List (List Char)
  | [] => [[]]
  | a :: rest =>
    let r := splitCharList c rest
    if a = c then [] :: r
    else
      match r with
      | [] => [[a]]
      | h :: t => (a :: h) :: t

def goSplitChar (s : String) (c : Char) : List String :=
  (splitCharList c s.data).map (fun l => { data := l })

/-- strings.TrimRight with cutset a newline. -/
def trimNl (l : List Char) : List Char :=
  (l.reverse.dropWhile (fun c => c = '\n')).reverse

/-- splitLines (parser/parser.go): strings.Split(strings.TrimRight(str, newline), newline). -/
def splitLines (s : String) : List String :=
  goSplitChar { data := trimNl s.data } '\n'

/-- strings.Join with a separator. -/
def goJoin (sep : String) : List String → String
  | [] => ""
  | [x] => x
  | x :: xs => x ++ sep ++ goJoin sep xs

def initParts : List String → List String
  | [] => []
  | [_] => []
  | x :: xs => x :: initParts xs

def lastPart (d : String) : List String → String
  | [] => d
  | [x] => x
  | _ :: xs => lastPart d xs

def headPart : List String → String
  | [] => ""
  | x :: _ => x

def secondPart : List String → String
  | _ :: x :: _ => x
  | _ => ""

/-- strings.TrimPrefix. -/
def goTrimPre (s p : String) : String :=
  if goStartsWith s p then { data := s.data.drop p.data.length } else s

/-- strings.Index of a pattern (as the index of its first occurrence). -/
def findSub (pat : List Char) : List Char → Option Nat
  | [] => if charPre pat [] then some 0 else none
  | a :: rest =>
    if charPre pat (a :: rest) then some 0
    else (findSub pat rest).map (· + 1)

/-! ## Name derivation (parser/parser.go) -/

/-- tcNameToName (parser/parser.go): anonymous type descriptions (struct,
chan, func, pointer, map, slice and array literals) become package-less
names; otherwise the part after the last dot is the local name and the rest
is the package path. -/
def tcNameToName (s : String) : Name :=
  if goStartsWith s "struct\x7b" || goStartsWith s "<-chan" || goStartsWith s "chan<-" ||
     goStartsWith s "chan " || goStartsWith s "func(" || goStartsWith s "*" ||
     goStartsWith s "map[" || goStartsWith s "[" then
    ⟨"", s, ""⟩
  else
    let parts := goSplitChar s '.'
    if 2 ≤ parts.length then ⟨goJoin "." (initParts parts), lastPart s parts, ""⟩
    else ⟨"", s, ""⟩

/-- tcFuncNameToName (parser/parser.go): strip a leading func keyword and
everything from the first opening parenthesis, then tcNameToName. -/
def tcFuncNameToName (s : String) : Name :=
  tcNameToName (headPart (goSplitChar (goTrimPre s "func ") '('))

/-- tcVarNameToName (parser/parser.go): the second space-separated word is
the qualified name (the Go code indexes it unconditionally). -/
def tcVarNameToName (s : String) : Name :=
  tcNameToName (secondPart (goSplitChar s ' '))

/-- canonicalizeImportPath (parser/parser.go): rewrite a path containing a
vendor segment to the suffix after the first such segment. -/
def canonicalizeImportPath (s : String) : String :=
  match findSub "/vendor/".data s.data with
  | none => s
  | some i => { data := s.data.drop (i + 8) }

/-- isErrPackageNotFound (parser/parser.go): the regular expression
anchored at the start requires the literal prefix followed, before any
newline, by a closing quote and colon. -/
def scanQC : List Char → Bool
  | [] => false
  | a :: rest =>
    if a = '\n' then false
    else if a = '"' then
      match rest with
      | ':' :: _ => true
      | _ => scanQC rest
    else scanQC rest

def isErrPackageNotFound (msg : String) : Bool :=
  goStartsWith msg "unable to import \"" &&
    scanQC (msg.data.drop ("unable to import \"".data.length))

/-- Go path/filepath.Split: the component after the last slash. -/
def lastPathComponent (s : String) : String :=
  { data := (s.data.reverse.takeWhile (fun c => c ≠ '/')).reverse }

/-- Lexicographic byte-order comparison, as sort.Strings uses. -/
def charListLe : List Char → List Char → Bool
  | [], _ => true
  | _ :: _, [] => false
  | a :: as, b :: bs => if a = b then charListLe as bs else decide (a.toNat < b.toNat)

def goStrLe (a b : String) : Bool := charListLe a.data b.data

/-- Lexicographic string sort (sort.Strings); insertion sort so that it
evaluates by kernel reduction. -/
def insertSorted (x : String) : List String → List String
  | [] => [x]
  | y :: ys => if goStrLe x y then x :: y :: ys else y :: insertSorted x ys

def sortStrings : List String → List String
  | [] => []
  | x :: xs => insertSorted x (sortStrings xs)

/-! ## The type-checking oracle's resolved types (go/types values)

walkType consumes go/types (tc) values.  A named type's underlying type and
method set live behind a pointer in Go; here they live in an environment
keyed by the named type's qualified description (exactly the string
t.String() would print), which lets self-referential types be represented
finitely.  Field, method and element structure is carried literally.  The
mutual inductives replace the nested lists of the Go structs so that the
printer below is structurally recursive. -/

/-- A source position (token.Pos resolved through the FileSet): file and line. -/
structure Pos where
  file : String
  line : Nat
deriving DecidableEq, Repr

inductive ChanDir where
  | both
  | recvOnly
  | sendOnly
deriving DecidableEq, Repr

mutual
inductive TCType where
  | basic (bname : String)
  | named (qname : String)
  | struct (fields : TCFields)
  | map (key elem : TCType)
  | pointer (elem : TCType)
  | slice (elem : TCType)
  | array (len : Nat) (elem : TCType)
  | chan (dir : ChanDir) (elem : TCType)
  | signature (recv : TCOpt) (params : TCList) (results : TCList) (variadic : Bool)
  | tcInterface (methods : TCMethods)
  | unrecognized (descr : String)

/-- Struct fields: name, Anonymous flag, tag, position, field type. -/
inductive TCFields where
  | nil
  | cons (fname : String) (embedded : Bool) (tag : String) (pos : Pos)
         (ty : TCType) (rest : TCFields)

/-- Method sets: method name, the tc.Func's String() description, position,
method type. -/
inductive TCMethods where
  | nil
  | cons (mname : String) (mstr : String) (pos : Pos) (ty : TCType) (rest : TCMethods)

inductive TCList where
  | nil
  | cons (ty : TCType) (rest : TCList)

inductive TCOpt where
  | none
  | some (ty : TCType)
end

/-- What a *tc.Named carries besides its name: its underlying type and its
declared methods. -/
structure NamedDef where
  underlying : TCType
  methods : TCMethods

/-- The oracle's table of named types: qualified description to definition. -/
abbrev TCEnv := List (String × NamedDef)

/-! ## tc.Type String() (the description walkType derives names from) -/

mutual
def tcString : TCType → String
  | TCType.basic bn => bn
  | TCType.named q => q
  | TCType.struct fs => "struct\x7b" ++ tcFieldsString fs ++ "\x7d"
  | TCType.map k v => "map[" ++ tcString k ++ "]" ++ tcString v
  | TCType.pointer e => "*" ++ tcString e
  | TCType.slice e => "[]" ++ tcString e
  | TCType.array n e => "[" ++ toString n ++ "]" ++ tcString e
  | TCType.chan ChanDir.both e => "chan " ++ tcString e
  | TCType.chan ChanDir.recvOnly e => "<-chan " ++ tcString e
  | TCType.chan ChanDir.sendOnly e => "chan<- " ++ tcString e
  | TCType.signature _ ps rs _ => "func(" ++ tcListString ps ++ ")(" ++ tcListString rs ++ ")"
  | TCType.tcInterface ms => "interface\x7b" ++ tcMethodsString ms ++ "\x7d"
  | TCType.unrecognized d => d

def tcFieldString (fn : String) (embedded : Bool) (tag : String) (ty : TCType) : String :=
  (if embedded then tcString ty else fn ++ " " ++ tcString ty) ++
    (if tag = "" then "" else " \"" ++ tag ++ "\"")

def tcFieldsString : TCFields → String
  | TCFields.nil => ""
  | TCFields.cons fn emb tag _ ty TCFields.nil => tcFieldString fn emb tag ty
  | TCFields.cons fn emb tag _ ty rest =>
    tcFieldString fn emb tag ty ++ "; " ++ tcFieldsString rest

def tcMethodsString : TCMethods → String
  | TCMethods.nil => ""
  | TCMethods.cons mn _ _ ty TCMethods.nil => mn ++ " " ++ tcString ty
  | TCMethods.cons mn _ _ ty rest => mn ++ " " ++ tcString ty ++ "; " ++ tcMethodsString rest

def tcListString : TCList → String
  | TCList.nil => ""
  | TCList.cons ty TCList.nil => tcString ty
  | TCList.cons ty rest => tcString ty ++ ", " ++ tcListString rest
end

/-! ## Comment table (parser/builder.go)

addFile indexes every comment group of a parsed file under the (file,
end line) of the group; priorCommentLines then looks a declaration's
preceding comment up at (file, declaration line - lines). -/

structure FileLine where
  file : String
  line : Nat
deriving DecidableEq, Repr

/-- An ast.CommentGroup: the line of its first comment token (List[0].Slash)
and its Text() — the cleaned text, one line per comment line. -/
structure CommentGroup where
  startLine : Nat
  text : String
deriving DecidableEq, Repr

abbrev CTable := List (FileLine × CommentGroup)

def lookupFL : CTable → FileLine → Option CommentGroup
  | [], _ => none
  | (k, v) :: rest, q => if q = k then some v else lookupFL rest q

def insertFL (tbl : CTable) (k : FileLine) (v : CommentGroup) : CTable :=
  match tbl with
  | [] => [(k, v)]
  | (k0, v0) :: rest => if k = k0 then (k, v) :: rest else (k0, v0) :: insertFL rest k v

/-- The comment-indexing loop of addFile (parser/builder.go, lines 323-326):
each group (startLine, endLine, text) of a file is indexed by its end line. -/
def indexComments (file : String) (groups : List (Nat × Nat × String)) : CTable :=
  groups.foldl (fun tbl g => insertFL tbl ⟨file, g.2.1⟩ ⟨g.1, g.2.2⟩) []

/-- priorCommentLines (parser/builder.go, lines 683-687). -/
def priorCommentLines (tbl : CTable) (pos : Pos) (lines : Nat) : Option CommentGroup :=
  lookupFL tbl ⟨pos.file, pos.line - lines⟩

/-- CommentGroup.Text() with the nil-group convention: nil prints "". -/
def textOf : Option CommentGroup → String
  | Option.none => ""
  | Option.some g => g.text

/-- The comment-attachment logic of findTypesIn (parser/builder.go, lines
483-489 and 496-502): CommentLines from the group ending on the line right
above the declaration; SecondClosestCommentLines from two lines above that
group's start (or two lines above the declaration when there is no adjacent
group). -/
def attachDeclComments (tbl : CTable) (pos : Pos) : List String × List String :=
  match priorCommentLines tbl pos 1 with
  | Option.none =>
    (splitLines "", splitLines (textOf (priorCommentLines tbl pos 2)))
  | Option.some g =>
    (splitLines g.text,
     splitLines (textOf (lookupFL tbl ⟨pos.file, g.startLine - 2⟩)))

/-! ## walkType (parser/builder.go, lines 526-680)

The effective name each branch resolves its node under: the generic
branches use the override if supplied and otherwise the type's printed
description; the Basic branch always uses the bare primitive name in the
empty (builtin) package; the Named branch always re-derives the name from
the named type's own description, ignoring any override (the Go code
shadows the outer name variable in both Named sub-cases). -/

def walkTypeName (useName : Option Name) (t : TCType) : Name :=
  match t with
  | TCType.basic bn => ⟨"", bn, ""⟩
  | TCType.named q => tcNameToName q
  | t' =>
    match useName with
    | Option.some n => n
    | Option.none => tcNameToName (tcString t')

/-- The member-building loop of the Struct branch (lines 541-551): walk each
field's type, attach the comment on the line above the field, append the
Member in declaration order. -/
def walkFieldsF (tbl : CTable)
    (rec : Universe → Option Name → TCType → Option (NodeId × Universe)) :
    Universe → NodeId → TCFields → Option Universe
  | u, _, TCFields.nil => some u
  | u, owner, TCFields.cons fname emb tag pos ty rest =>
    match rec u none ty with
    | Option.none => none
    | Option.some (j, u1) =>
      let m : Member :=
        ⟨fname, emb, splitLines (textOf (priorCommentLines tbl pos 1)), tag, j⟩
      let u2 := setNode u1 owner (fun nd => { nd with members := nd.members ++ [m] })
      walkFieldsF tbl rec u2 owner rest

/-- The method loop shared by the Interface branch (lines 623-632) and the
Named branch (lines 658-668): walk each method's type under the override
name derived from the method's description, overwrite that node's
CommentLines with the comment above the method, and record it in the
owner's Methods map. -/
def walkMethodsF (tbl : CTable)
    (rec : Universe → Option Name → TCType → Option (NodeId × Universe)) :
    Universe → NodeId → TCMethods → Option Universe
  | u, _, TCMethods.nil => some u
  | u, owner, TCMethods.cons mname mstr pos ty rest =>
    let mn := tcNameToName mstr
    match rec u (some mn) ty with
    | Option.none => none
    | Option.some (j, u1) =>
      let u2 := setNode u1 j (fun nd =>
        { nd with commentLines := splitLines (textOf (priorCommentLines tbl pos 1)) })
      let u3 := setNode u2 owner (fun nd => { nd with methods := insertA nd.methods mname j })
      walkMethodsF tbl rec u3 owner rest

def walkListF (rec : Universe → Option Name → TCType → Option (NodeId × Universe)) :
    Universe → TCList → Option (List NodeId × Universe)
  | u, TCList.nil => some ([], u)
  | u, TCList.cons ty rest =>
    match rec u none ty with
    | Option.none => none
    | Option.some (j, u1) =>
      match walkListF rec u1 rest with
      | Option.none => none
      | Option.some (js, u2) => some (j :: js, u2)

/-- convertSignature (parser/builder.go, lines 689-702): parameters, then
results, then the receiver if present. -/
def convertSignatureF (rec : Universe → Option Name → TCType → Option (NodeId × Universe))
    (u : Universe) (r : TCOpt) (ps rs : TCList) (vd : Bool) : Option (Sig × Universe) :=
  match walkListF rec u ps with
  | Option.none => none
  | Option.some (pids, u1) =>
    match walkListF rec u1 rs with
    | Option.none => none
    | Option.some (rids, u2) =>
      match r with
      | TCOpt.none => some (⟨none, pids, rids, vd, []⟩, u2)
      | TCOpt.some rt =>
        match rec u2 none rt with
        | Option.none => none
        | Option.some (ri, u3) => some (⟨some ri, pids, rids, vd, []⟩, u3)

/-- The Named branch's first sub-case (lines 637-644): the underlying shape
is itself named, primitive, a map or a slice, so the node becomes an Alias
wrapping the walked underlying type; afterwards methods are attached if
none were. -/
def walkAliasF (tbl : CTable)
    (rec : Universe → Option Name → TCType → Option (NodeId × Universe))
    (u : Universe) (nm : Name) (und : TCType) (ms : TCMethods) :
    Option (NodeId × Universe) :=
  let iu := uType u nm
  if (getNode iu.2 iu.1).kind = Kind.Unknown then
    let u1 := setNode iu.2 iu.1 (fun nd => { nd with kind := Kind.Alias })
    match rec u1 none und with
    | Option.none => none
    | Option.some (j, u2) =>
      let u3 := setNode u2 iu.1 (fun nd => { nd with underlying := some j })
      if (getNode u3 iu.1).methods.length = 0 then
        match walkMethodsF tbl rec u3 iu.1 ms with
        | Option.none => none
        | Option.some u4 => some (iu.1, u4)
      else some (iu.1, u3)
  else some iu

/-- The Named branch's default sub-case (lines 645-654): the underlying
shape is an anonymous composite, so the wrapper is elided — the underlying
type is walked under the named type's own identity as override and the
named node carries the composite's Kind directly; afterwards methods are
attached if none were. -/
def walkFlattenF (tbl : CTable)
    (rec : Universe → Option Name → TCType → Option (NodeId × Universe))
    (u : Universe) (nm : Name) (und : TCType) (ms : TCMethods) :
    Option (NodeId × Universe) :=
  let iu := uType u nm
  if (getNode iu.2 iu.1).kind = Kind.Unknown then
    match rec iu.2 (some nm) und with
    | Option.none => none
    | Option.some (j, u2) =>
      if (getNode u2 j).methods.length = 0 then
        match walkMethodsF tbl rec u2 j ms with
        | Option.none => none
        | Option.some u3 => some (j, u3)
      else some (j, u2)
  else some iu

/-- walkType (parser/builder.go, lines 526-680), with explicit fuel: each
recursive walk of a child type consumes one unit.  Every branch first
resolves the node for the branch's effective name and returns it untouched
when its Kind is already set (the memoization that also breaks
self-reference cycles); only then does it populate the node. -/
def walkType (tbl : CTable) (env : TCEnv) :
    Nat → Universe → Option Name → TCType → Option (NodeId × Universe)
  | 0, _, _, _ => none
  | fuel + 1, u, useName, tin =>
    let name := walkTypeName useName tin
    match tin with
    | TCType.struct fields =>
      let iu := uType u name
      if (getNode iu.2 iu.1).kind = Kind.Unknown then
        let u1 := setNode iu.2 iu.1 (fun nd => { nd with kind := Kind.Struct })
        match walkFieldsF tbl (walkType tbl env fuel) u1 iu.1 fields with
        | Option.none => none
        | Option.some u2 => some (iu.1, u2)
      else some iu
    | TCType.map k v =>
      let iu := uType u name
      if (getNode iu.2 iu.1).kind = Kind.Unknown then
        let u1 := setNode iu.2 iu.1 (fun nd => { nd with kind := Kind.Map })
        match walkType tbl env fuel u1 none v with
        | Option.none => none
        | Option.some (je, u2) =>
          let u2a := setNode u2 iu.1 (fun nd => { nd with elem := some je })
          match walkType tbl env fuel u2a none k with
          | Option.none => none
          | Option.some (jk, u3) =>
            some (iu.1, setNode u3 iu.1 (fun nd => { nd with key := some jk }))
      else some iu
    | TCType.pointer e =>
      let iu := uType u name
      if (getNode iu.2 iu.1).kind = Kind.Unknown then
        let u1 := setNode iu.2 iu.1 (fun nd => { nd with kind := Kind.Pointer })
        match walkType tbl env fuel u1 none e with
        | Option.none => none
        | Option.some (j, u2) =>
          some (iu.1, setNode u2 iu.1 (fun nd => { nd with elem := some j }))
      else some iu
    | TCType.slice e =>
      let iu := uType u name
      if (getNode iu.2 iu.1).kind = Kind.Unknown then
        let u1 := setNode iu.2 iu.1 (fun nd => { nd with kind := Kind.Slice })
        match walkType tbl env fuel u1 none e with
        | Option.none => none
        | Option.some (j, u2) =>
          some (iu.1, setNode u2 iu.1 (fun nd => { nd with elem := some j }))
      else some iu
    | TCType.array _ e =>
      let iu := uType u name
      if (getNode iu.2 iu.1).kind = Kind.Unknown then
        let u1 := setNode iu.2 iu.1 (fun nd => { nd with kind := Kind.Array })
        match walkType tbl env fuel u1 none e with
        | Option.none => none
        | Option.some (j, u2) =>
          some (iu.1, setNode u2 iu.1 (fun nd => { nd with elem := some j }))
      else some iu
    | TCType.chan _ e =>
      let iu := uType u name
      if (getNode iu.2 iu.1).kind = Kind.Unknown then
        let u1 := setNode iu.2 iu.1 (fun nd => { nd with kind := Kind.Chan })
        match walkType tbl env fuel u1 none e with
        | Option.none => none
        | Option.some (j, u2) =>
          some (iu.1, setNode u2 iu.1 (fun nd => { nd with elem := some j }))
      else some iu
    | TCType.basic _ =>
      let iu := uType u name
      if (getNode iu.2 iu.1).kind = Kind.Unknown then
        some (iu.1, setNode iu.2 iu.1 (fun nd => { nd with kind := Kind.Unsupported }))
      else some iu
    | TCType.signature r ps rs vd =>
      let iu := uType u name
      if (getNode iu.2 iu.1).kind = Kind.Unknown then
        let u1 := setNode iu.2 iu.1 (fun nd => { nd with kind := Kind.Func })
        match convertSignatureF (walkType tbl env fuel) u1 r ps rs vd with
        | Option.none => none
        | Option.some (sg, u2) =>
          some (iu.1, setNode u2 iu.1 (fun nd => { nd with signature := some sg }))
      else some iu
    | TCType.tcInterface ms =>
      let iu := uType u name
      if (getNode iu.2 iu.1).kind = Kind.Unknown then
        let u1 := setNode iu.2 iu.1 (fun nd => { nd with kind := Kind.Interface })
        match walkMethodsF tbl (walkType tbl env fuel) u1 iu.1 ms with
        | Option.none => none
        | Option.some u2 => some (iu.1, u2)
      else some iu
    | TCType.named q =>
      match lookupA env q with
      | Option.some d =>
        match d.underlying with
        | TCType.named _ => walkAliasF tbl (walkType tbl env fuel) u name d.underlying d.methods
        | TCType.basic _ => walkAliasF tbl (walkType tbl env fuel) u name d.underlying d.methods
        | TCType.map _ _ => walkAliasF tbl (walkType tbl env fuel) u name d.underlying d.methods
        | TCType.slice _ => walkAliasF tbl (walkType tbl env fuel) u name d.underlying d.methods
        | _ => walkFlattenF tbl (walkType tbl env fuel) u name d.underlying d.methods
      | Option.none =>
        let iu := uType u name
        if (getNode iu.2 iu.1).kind = Kind.Unknown then
          some (iu.1, setNode iu.2 iu.1 (fun nd => { nd with kind := Kind.Unsupported }))
        else some iu
    | TCType.unrecognized _ =>
      let iu := uType u name
      if (getNode iu.2 iu.1).kind = Kind.Unknown then
        some (iu.1, setNode iu.2 iu.1 (fun nd => { nd with kind := Kind.Unsupported }))
      else some iu

/-! ## Builder state (parser/builder.go, Builder struct)

The fields the claims concern: parsed files per package, the
user-requested flags, the type-check result cache (whose stored nil is the
in-progress sentinel), the import graph, the comment table, the build
package cache and the absolute path table. -/

/-- A parsed source file: its absolute path, the Text() of each of its
comment groups in order, and the file's doc comment if any. -/
structure ParsedFile where
  fname : String
  comments : List String
  doc : Option String
deriving Repr

/-- An object in a type-checked package's scope, as findTypesIn consumes
it: a type name, a function (carrying the tc.Func's String() description
and its signature type), a variable or a constant (carrying the tc object's
String() description and type). -/
inductive ScopeObj where
  | typeDecl (pos : Pos) (ty : TCType)
  | funcDecl (pos : Pos) (descr : String) (ty : TCType)
  | varDecl (descr : String) (ty : TCType)
  | constDecl (descr : String) (ty : TCType)

/-- A *tc.Package returned by the oracle: declared name, path, and the
scope's objects in the order Scope().Names() yields them. -/
structure TCPkg where
  name : String
  path : String
  scope : List ScopeObj

structure BuildPkg where
  importPath : String
  dir : String
deriving DecidableEq, Repr

structure BState where
  buildPackages : List (String × BuildPkg)
  parsed : List (String × List ParsedFile)
  absPaths : List (String × String)
  typeChecked : List (String × Option TCPkg)
  userRequested : List (String × Bool)
  commentTable : CTable
  importGraph : List (String × List String)

def emptyBState : BState := ⟨[], [], [], [], [], [], []⟩

/-- The external type-checking oracle (tc.Config.Check together with the
importer callback): it may mutate the builder state re-entrantly and
returns a package (possibly despite an error) and an optional error. -/
abbrev CheckFn := BState → String → List ParsedFile → BState × Option TCPkg × Option String

/-- typeCheckPackage (parser/builder.go, lines 343-377): a cached non-nil
entry returns immediately; a cached nil entry is the in-progress sentinel
and yields the circular-dependency error; otherwise a nil sentinel is
stored, the oracle runs, and its package (nil or not) is recorded. -/
def typeCheckPackage (checkFn : CheckFn) (b : BState) (pkgPath : String) :
    BState × Option TCPkg × Option String :=
  match lookupA b.typeChecked pkgPath with
  | Option.some (Option.some pkg) => (b, some pkg, none)
  | Option.some Option.none =>
    (b, none, some ("circular dependency for \"" ++ pkgPath ++ "\""))
  | Option.none =>
    match lookupA b.parsed pkgPath with
    | Option.none => (b, none, some ("no files for pkg \"" ++ pkgPath ++ "\""))
    | Option.some files =>
      let b1 := { b with typeChecked := insertA b.typeChecked pkgPath none }
      let r := checkFn b1 pkgPath files
      let b2 := { r.1 with typeChecked := insertA r.1.typeChecked pkgPath r.2.1 }
      (b2, r.2.1, r.2.2)

/-- The effect of addDir (parser/builder.go, lines 257-299): importing the
build package, sanity-checking the directory, reading and parsing every
file.  Everything it touches is the filesystem and the parser, external to
the claims about importPackage, so it is a parameter: it returns the
mutated state and an optional error message. -/
abbrev AddDirFn := String → Bool → BState → BState × Option String

/-- importPackage (parser/builder.go, lines 196-253).  The canonical path
is looked up in buildPackages before and, when the directory was freshly
added, after addDir; a "package not found" failure of addDir is swallowed
(nil package, nil error) and every other failure is returned; the
user-requested flag is merged; then the package is type checked, errors
being ignored when the directory was processed for the first time in this
call and the oracle still produced a package. -/
def importPkgPath (b : BState) (dir : String) : String :=
  match lookupA b.buildPackages dir with
  | Option.some bp => canonicalizeImportPath bp.importPath
  | Option.none => dir

def importPackage (addDirFn : AddDirFn) (checkFn : CheckFn)
    (b : BState) (dir : String) (userRequested : Bool) :
    BState × Except String (Option TCPkg) :=
  let pkgPath := importPkgPath b dir
  match lookupA b.parsed pkgPath with
  | Option.none =>
    let r := addDirFn dir userRequested b
    match r.2 with
    | Option.some msg =>
      if isErrPackageNotFound msg then (r.1, Except.ok none)
      else (r.1, Except.error msg)
    | Option.none =>
      let pkgPath2 :=
        match lookupA r.1.buildPackages dir with
        | Option.some bp => canonicalizeImportPath bp.importPath
        | Option.none => pkgPath
      importPackageFinish checkFn r.1 pkgPath2 userRequested true
  | Option.some _ =>
    importPackageFinish checkFn b pkgPath userRequested false
where
  /-- Lines 232-252: merge the user-requested flag, run the type checker,
  and apply the ignore-error policy (ignoreError is true exactly when the
  directory was processed for the first time). -/
  importPackageFinish (checkFn : CheckFn) (b : BState) (pkgPath : String)
      (userRequested ignoreError : Bool) : BState × Except String (Option TCPkg) :=
    let prev := (lookupA b.userRequested pkgPath).getD false
    let b1 := { b with userRequested := insertA b.userRequested pkgPath (userRequested || prev) }
    let r := typeCheckPackage checkFn b1 pkgPath
    match r.2.2 with
    | Option.none => (r.1, Except.ok r.2.1)
    | Option.some e =>
      match r.2.1 with
      | Option.some pkg => if ignoreError then (r.1, Except.ok (some pkg)) else (r.1, Except.error e)
      | Option.none => (r.1, Except.error e)

/-- AddDir (parser/builder.go, lines 121-124): importPackage with
userRequested true, keeping only the error. -/
def addDirApi (addDirFn : AddDirFn) (checkFn : CheckFn) (b : BState) (dir : String) :
    BState × Option String :=
  match importPackage addDirFn checkFn b dir true with
  | (b1, Except.ok _) => (b1, none)
  | (b1, Except.error e) => (b1, some e)

/-! ## Declaration adders and findTypesIn / FindTypes (parser/builder.go) -/

/-- addFunction (parser/builder.go, lines 704-713). -/
def addFunction (tbl : CTable) (env : TCEnv) (fuel : Nat) (u : Universe)
    (useName : Option Name) (descr : String) (ty : TCType) : Option (NodeId × Universe) :=
  let name := match useName with
    | Option.some n => n
    | Option.none => tcFuncNameToName descr
  let iu := uFunction u name
  let u1 := setNode iu.2 iu.1 (fun nd => { nd with kind := Kind.DeclarationOf })
  match walkType tbl env fuel u1 none ty with
  | Option.none => none
  | Option.some (j, u2) =>
    some (iu.1, setNode u2 iu.1 (fun nd => { nd with underlying := some j }))

/-- addVariable (parser/builder.go, lines 715-724). -/
def addVariable (tbl : CTable) (env : TCEnv) (fuel : Nat) (u : Universe)
    (useName : Option Name) (descr : String) (ty : TCType) : Option (NodeId × Universe) :=
  let name := match useName with
    | Option.some n => n
    | Option.none => tcVarNameToName descr
  let iu := uVariable u name
  let u1 := setNode iu.2 iu.1 (fun nd => { nd with kind := Kind.DeclarationOf })
  match walkType tbl env fuel u1 none ty with
  | Option.none => none
  | Option.some (j, u2) =>
    some (iu.1, setNode u2 iu.1 (fun nd => { nd with underlying := some j }))

/-- addConstant (parser/builder.go, lines 726-735). -/
def addConstant (tbl : CTable) (env : TCEnv) (fuel : Nat) (u : Universe)
    (useName : Option Name) (descr : String) (ty : TCType) : Option (NodeId × Universe) :=
  let name := match useName with
    | Option.some n => n
    | Option.none => tcVarNameToName descr
  let iu := uConstant u name
  let u1 := setNode iu.2 iu.1 (fun nd => { nd with kind := Kind.DeclarationOf })
  match walkType tbl env fuel u1 none ty with
  | Option.none => none
  | Option.some (j, u2) =>
    some (iu.1, setNode u2 iu.1 (fun nd => { nd with underlying := some j }))

/-- The scope loop body of findTypesIn (parser/builder.go, lines 478-513):
type names are walked and get their comments attached; functions are added
when their signature has no receiver, with comments attached; variables and
constants are added without comment attachment. -/
def processScopeObj (tbl : CTable) (env : TCEnv) (fuel : Nat) (u : Universe) :
    ScopeObj → Option Universe
  | ScopeObj.typeDecl pos ty =>
    match walkType tbl env fuel u none ty with
    | Option.none => none
    | Option.some (i, u1) =>
      let cc := attachDeclComments tbl pos
      some (setNode u1 i (fun nd =>
        { nd with commentLines := cc.1, secondClosestCommentLines := cc.2 }))
  | ScopeObj.funcDecl pos descr ty =>
    match ty with
    | TCType.signature TCOpt.none _ _ _ =>
      match addFunction tbl env fuel u none descr ty with
      | Option.none => none
      | Option.some (i, u1) =>
        let cc := attachDeclComments tbl pos
        some (setNode u1 i (fun nd =>
          { nd with commentLines := cc.1, secondClosestCommentLines := cc.2 }))
    | _ => some u
  | ScopeObj.varDecl descr ty =>
    match addVariable tbl env fuel u none descr ty with
    | Option.none => none
    | Option.some (_, u1) => some u1
  | ScopeObj.constDecl descr ty =>
    match addConstant tbl env fuel u none descr ty with
    | Option.none => none
    | Option.some (_, u1) => some u1

def processScope (tbl : CTable) (env : TCEnv) (fuel : Nat) :
    Universe → List ScopeObj → Option Universe
  | u, [] => some u
  | u, o :: rest =>
    match processScopeObj tbl env fuel u o with
    | Option.none => none
    | Option.some u1 => processScope tbl env fuel u1 rest

/-- One Universe.AddImports call (types/types.go, lines 58-63): get or
create both packages and record the import edge, creating a marker Package
for the imported path. -/
def addImportsOne (u : Universe) (pkgPath imp : String) : Universe :=
  let u1 := (uPackage u pkgPath).2
  let u2 := (uPackage u1 imp).2
  updatePackage u2 pkgPath (fun p =>
    { p with imports := if p.imports.contains imp then p.imports else p.imports ++ [imp] })

/-- findTypesIn (parser/builder.go, lines 442-524): packages not type
checked are an error; packages not user-requested are skipped (their types
are reachable through walks from requested packages only); otherwise the
package record is created and populated, doc.go comments are copied, every
scope object is processed, and the package's sorted import edges are
registered (creating marker records for the imported packages). -/
def findTypesIn (tbl : CTable) (env : TCEnv) (b : BState) (fuel : Nat)
    (pkgPath : String) (u : Universe) : Option (Except String Universe) :=
  match lookupA b.typeChecked pkgPath with
  | Option.some (Option.some pkg) =>
    if (lookupA b.userRequested pkgPath).getD false then
      let u1 := (uPackage u pkgPath).2
      let u2 := updatePackage u1 pkgPath (fun p =>
        { p with name := pkg.name, path := pkg.path,
                 sourcePath := (lookupA b.absPaths pkgPath).getD "" })
      let files := (lookupA b.parsed pkgPath).getD []
      let u3 := files.foldl (fun uacc f =>
        if lastPathComponent f.fname = "doc.go" then
          updatePackage uacc pkgPath (fun p =>
            let cmts := f.comments.foldl (fun acc c => acc ++ splitLines c) []
            let p1 := { p with comments := cmts }
            match f.doc with
            | Option.some d => { p1 with docComments := splitLines d }
            | Option.none => p1)
        else uacc) u2
      match processScope tbl env fuel u3 pkg.scope with
      | Option.none => none
      | Option.some u4 =>
        let imps := sortStrings ((lookupA b.importGraph pkgPath).getD [])
        some (Except.ok (imps.foldl (fun uacc p => addImportsOne uacc pkgPath p) u4))
    else some (Except.ok u)
  | _ => some (Except.error ("findTypesIn(" ++ pkgPath ++ "): package is not known"))

/-- FindTypes (parser/builder.go, lines 176-192): iterate the parsed
packages in sorted order, accumulating into one Universe. -/
def findTypes (tbl : CTable) (env : TCEnv) (b : BState) (fuel : Nat) :
    Option (Except String Universe) :=
  let keys := sortStrings (b.parsed.map (fun kv => kv.1))
  keys.foldl (fun acc p =>
    match acc with
    | Option.some (Except.ok u) => findTypesIn tbl env b fuel p u
    | other => other) (some (Except.ok initUniverse))

/-! ## Lookup-only views of the accessors -/

def findFunctionId (u : Universe) (n : Name) : Option NodeId :=
  match lookupA u.packages n.package with
  | some p => lookupA p.functions n.name
  | none => none

def findVariableId (u : Universe) (n : Name) : Option NodeId :=
  match lookupA u.packages n.package with
  | some p => lookupA p.vars n.name
  | none => none

def findConstantId (u : Universe) (n : Name) : Option NodeId :=
  match lookupA u.packages n.package with
  | some p => lookupA p.consts n.name
  | none => none

/-! ## Proof-support definitions: node shapes and the concrete walk scenarios -/

/-- A fresh Unknown marker node for a Name (the Path field is dropped, as
Package.Type does). -/
def mkMarkerNode (n : Name) : TypeNode :=
  { defNode with name := ⟨n.package, n.name, ""⟩ }

def mkNode2 (n : Name) (k : Kind) : TypeNode :=
  { defNode with name := n, kind := k }

/-- Universe used to witness the first-writer-wins theorem: package "p"
already holds a resolved Struct node for "T". -/
def c4Universe : Universe :=
  { initUniverse with
    nextId := 16,
    nodes := (15, mkNode2 ⟨"p", "T", ""⟩ Kind.Struct) :: initUniverse.nodes,
    packages := [("p", { emptyPackage "p" with types := [("T", 15)] })] }

/-- The oracle view of a struct with one field that is a pointer back to
the named type itself. -/
def c1F (fld qname : String) (pos : Pos) : TCFields :=
  TCFields.cons fld false "" pos (TCType.pointer (TCType.named qname)) TCFields.nil

def c1Env (fld qname : String) (pos : Pos) : TCEnv :=
  [(qname, ⟨TCType.struct (c1F fld qname pos), TCMethods.nil⟩)]

def c1P1 (pkgS tnameS : String) : Package :=
  { emptyPackage pkgS with types := [(tnameS, 15)] }

def c1U1 (pkgS tnameS : String) : Universe :=
  ⟨16, (15, mkMarkerNode ⟨pkgS, tnameS, ""⟩) :: initUniverse.nodes,
   [(pkgS, c1P1 pkgS tnameS)]⟩

def c1U2 (pkgS tnameS : String) : Universe :=
  ⟨16, (15, mkNode2 ⟨pkgS, tnameS, ""⟩ Kind.Struct) :: initUniverse.nodes,
   [(pkgS, c1P1 pkgS tnameS)]⟩

def c1P0 (qname : String) : Package :=
  { emptyPackage "" with types := [("*" ++ qname, 16)] }

def c1U3 (pkgS tnameS qname : String) : Universe :=
  ⟨17, (16, mkMarkerNode ⟨"", "*" ++ qname, ""⟩)
        :: (15, mkNode2 ⟨pkgS, tnameS, ""⟩ Kind.Struct) :: initUniverse.nodes,
   [(pkgS, c1P1 pkgS tnameS), ("", c1P0 qname)]⟩

def c1U3k (pkgS tnameS qname : String) : Universe :=
  ⟨17, (16, mkNode2 ⟨"", "*" ++ qname, ""⟩ Kind.Pointer)
        :: (15, mkNode2 ⟨pkgS, tnameS, ""⟩ Kind.Struct) :: initUniverse.nodes,
   [(pkgS, c1P1 pkgS tnameS), ("", c1P0 qname)]⟩

def c1N16c (qname : String) : TypeNode :=
  { mkNode2 ⟨"", "*" ++ qname, ""⟩ Kind.Pointer with elem := some 15 }

def c1U4 (pkgS tnameS qname : String) : Universe :=
  ⟨17, (16, c1N16c qname)
        :: (15, mkNode2 ⟨pkgS, tnameS, ""⟩ Kind.Struct) :: initUniverse.nodes,
   [(pkgS, c1P1 pkgS tnameS), ("", c1P0 qname)]⟩

def c1M (fld : String) : Member := ⟨fld, false, [""], "", 16⟩

def c1N15c (pkgS tnameS fld : String) : TypeNode :=
  { mkNode2 ⟨pkgS, tnameS, ""⟩ Kind.Struct with members := [c1M fld] }

def c1U5 (pkgS tnameS fld qname : String) : Universe :=
  ⟨17, (16, c1N16c qname) :: (15, c1N15c pkgS tnameS fld) :: initUniverse.nodes,
   [(pkgS, c1P1 pkgS tnameS), ("", c1P0 qname)]⟩

/-- Checks C1's conclusion on a walk result: the walk terminated with a
node whose Kind is Struct and whose single Member's Type is a Pointer node
whose Elem is the returned node itself (the same arena id, i.e. the
identical pointer). -/
def selfRefStructOk (r : Option (NodeId × Universe)) : Prop :=
  match r with
  | Option.none => False
  | Option.some (i, u) =>
    (getNode u i).kind = Kind.Struct ∧
    match (getNode u i).members with
    | [m] =>
      (getNode u m.type).kind = Kind.Pointer ∧
      (getNode u m.type).elem = some i
    | _ => False

/-- The oracle view of a named type over an anonymous struct with one int
field. -/
def c2F (fldN : String) (pos : Pos) : TCFields :=
  TCFields.cons fldN false "" pos (TCType.basic "int") TCFields.nil

def c2Env (fldN qname : String) (pos : Pos) : TCEnv :=
  [(qname, ⟨TCType.struct (c2F fldN pos), TCMethods.nil⟩)]

def c2P0 : Package := { emptyPackage "" with types := [("int", 4)] }

def c2U3 (pkgS tnameS : String) : Universe :=
  ⟨16, (15, mkNode2 ⟨pkgS, tnameS, ""⟩ Kind.Struct) :: initUniverse.nodes,
   [(pkgS, c1P1 pkgS tnameS), ("", c2P0)]⟩

def c2M (fldN : String) : Member := ⟨fldN, false, [""], "", 4⟩

def c2U4 (pkgS tnameS fldN : String) : Universe :=
  ⟨16, (15, { mkNode2 ⟨pkgS, tnameS, ""⟩ Kind.Struct with members := [c2M fldN] })
        :: initUniverse.nodes,
   [(pkgS, c1P1 pkgS tnameS), ("", c2P0)]⟩

/-- Checks C2's conclusion on a walk result: the arena grew by exactly one
node (nextId 15 to 16, so no Alias node and no separate anonymous-struct
node was created), that node sits at the named type's identity, carries
Kind Struct directly, and is the package's sole Types entry. -/
def flattenOk (pkgS tnameS : String) (r : Option (NodeId × Universe)) : Prop :=
  match r with
  | Option.none => False
  | Option.some (i, u) =>
    u.nextId = 16 ∧
    (getNode u i).kind = Kind.Struct ∧
    (getNode u i).name = ⟨pkgS, tnameS, ""⟩ ∧
    (match lookupA u.packages pkgS with
     | Option.some p => p.types = [(tnameS, i)]
     | Option.none => False)

/-! ## Concrete scenarios for the resolution and pipeline claims -/

/-- An addDir outcome that fails to resolve the directory with the
"unable to import" shape importBuildPackage produces. -/
def c5AddDir : AddDirFn :=
  fun d _ b => (b, some ("unable to import \"" ++ d ++ "\": no buildable sources"))

/-- An addDir outcome failing with an unrelated error shape. -/
def c5AddDirOther : AddDirFn :=
  fun d _ b => (b, some ("while loading " ++ d ++ ": boom"))

/-- A type-check oracle that does nothing. -/
def trivCheck : CheckFn := fun b _ _ => (b, none, none)

/-- An oracle whose import callback re-enters typeCheckPackage on the same
package, as the importAdapter does for a self-import cycle. -/
def c6Reentrant : CheckFn := fun b p _ => typeCheckPackage trivCheck b p

def c6Pkg : TCPkg := ⟨"x", "x", []⟩

def c6Cached : BState := { emptyBState with typeChecked := [("x", some c6Pkg)] }

def c6InProgress : BState := { emptyBState with typeChecked := [("x", none)] }

def c6Fresh : BState := { emptyBState with parsed := [("x", [])] }

/-- C7 scenario: user-requested packages "a" and "b" parsed and type
checked; "a" imports "b", "b" imports "c"; "c" failed to resolve, so it
was never parsed, never type checked and never user-requested. -/
def c7Env : TCEnv :=
  [("a.T", ⟨TCType.struct (TCFields.cons "N" false "" ⟨"a.go", 3⟩
      (TCType.basic "int") TCFields.nil), TCMethods.nil⟩)]

def c7PkgA : TCPkg := ⟨"a", "a", [ScopeObj.typeDecl ⟨"a.go", 4⟩ (TCType.named "a.T")]⟩

def c7PkgB : TCPkg := ⟨"b", "b", []⟩

def c7B : BState :=
  { emptyBState with
    parsed := [("a", [⟨"/src/a/a.go", [], none⟩]), ("b", [⟨"/src/b/b.go", [], none⟩])],
    typeChecked := [("a", some c7PkgA), ("b", some c7PkgB)],
    userRequested := [("a", true), ("b", true)],
    importGraph := [("a", ["b"]), ("b", ["c"])] }

/-- The claim's reading of C7's outcome: FindTypes succeeds and the result
has no package record under the failed transitive path "c". -/
def c7ExcludesC : Bool :=
  match findTypes [] c7Env c7B 6 with
  | Option.some (Except.ok u) => (lookupA u.packages "c").isNone
  | _ => false

/-- What the code actually leaves behind for C7: FindTypes succeeds, "a"
and "b" are populated records (declared name set; "a" holds its walked
type), and "c" exists only as an empty import-marker record with no name
and no types. -/
def c7MarkerOnly : Bool :=
  match findTypes [] c7Env c7B 6 with
  | Option.some (Except.ok u) =>
    (match lookupA u.packages "a" with
     | Option.some p => p.name == "a" && (lookupA p.types "T").isSome
     | Option.none => false) &&
    (match lookupA u.packages "b" with
     | Option.some p => p.name == "b"
     | Option.none => false) &&
    (match lookupA u.packages "c" with
     | Option.some p => p.name == "" && p.types.isEmpty
     | Option.none => false)
  | _ => false

/-- The three successive builtin lookups of C10, each threading the
Universe the previous one returned. -/
def c10R1 : NodeId × Universe := uType initUniverse ⟨"", "byte", ""⟩

def c10R2 : NodeId × Universe := uType c10R1.2 ⟨"", "uint8", ""⟩

def c10R3 : NodeId × Universe := uType c10R2.2 ⟨"", "int8", ""⟩

/-! ## Lemmas about the association-list maps -/

theorem lookupA_insertA_self {α : Type} (l : List (String × α)) (k : String) (v : α) :
    lookupA (insertA l k v) k = some v := by
  induction l with
  | nil => simp [insertA, lookupA]
  | cons hd tl ih =>
    by_cases hk : k = hd.1
    · simp [insertA, lookupA, hk]
    · simp [insertA, lookupA, hk, ih]

theorem insertA_insertA {α : Type} (l : List (String × α)) (k : String) (a b : α) :
    insertA (insertA l k a) k b = insertA l k b := by
  induction l with
  | nil => simp [insertA]
  | cons hd tl ih =>
    by_cases hk : k = hd.1
    · simp [insertA, hk]
    · simp [insertA, hk, ih]

/-! ## Evaluation lemmas for the accessors -/

theorem uType_found {u : Universe} {n : Name} {i : NodeId}
    (h : findTypeId u n = some i) : uType u n = (i, u) := by
  unfold findTypeId at h
  rcases hp : lookupA u.packages n.package with _ | p
  · rw [hp] at h; exact absurd h (by simp)
  · rw [hp] at h
    simp only at h
    unfold uType uPackage
    simp [hp, h]

theorem uType_post (u : Universe) (n : Name) :
    findTypeId (uType u n).2 n = some (uType u n).1 := by
  unfold uType uPackage
  rcases hp : lookupA u.packages n.package with _ | p
  · simp only [hp]
    rcases hb : (if (emptyPackage n.package).path = "" then lookupA builtinsTypes n.name else none)
        with _ | i
    · simp only [show lookupA (emptyPackage n.package).types n.name = (none : Option NodeId)
        from rfl, hb]
      unfold findTypeId
      simp [lookupA_insertA_self]
    · simp only [show lookupA (emptyPackage n.package).types n.name = (none : Option NodeId)
        from rfl, hb]
      unfold findTypeId
      simp [lookupA_insertA_self]
  · simp only [hp]
    rcases ht : lookupA p.types n.name with _ | i
    · simp only [ht]
      rcases hb : (if p.path = "" then lookupA builtinsTypes n.name else none) with _ | i
      · simp only [hb]
        unfold findTypeId
        simp [lookupA_insertA_self]
      · simp only [hb]
        unfold findTypeId
        simp [lookupA_insertA_self]
    · simp only [ht]
      unfold findTypeId
      simp [hp, ht]

theorem uFunction_found {u : Universe} {n : Name} {i : NodeId}
    (h : findFunctionId u n = some i) : uFunction u n = (i, u) := by
  unfold findFunctionId at h
  rcases hp : lookupA u.packages n.package with _ | p
  · rw [hp] at h; exact absurd h (by simp)
  · rw [hp] at h
    simp only at h
    unfold uFunction uPackage
    simp [hp, h]

theorem uFunction_post (u : Universe) (n : Name) :
    findFunctionId (uFunction u n).2 n = some (uFunction u n).1 := by
  unfold uFunction uPackage
  rcases hp : lookupA u.packages n.package with _ | p
  · simp only [hp]
    simp only [show lookupA (emptyPackage n.package).functions n.name = (none : Option NodeId)
      from rfl]
    unfold findFunctionId
    simp [lookupA_insertA_self]
  · simp only [hp]
    rcases ht : lookupA p.functions n.name with _ | i
    · simp only [ht]
      unfold findFunctionId
      simp [lookupA_insertA_self]
    · simp only [ht]
      unfold findFunctionId
      simp [hp, ht]

theorem uVariable_found {u : Universe} {n : Name} {i : NodeId}
    (h : findVariableId u n = some i) : uVariable u n = (i, u) := by
  unfold findVariableId at h
  rcases hp : lookupA u.packages n.package with _ | p
  · rw [hp] at h; exact absurd h (by simp)
  · rw [hp] at h
    simp only at h
    unfold uVariable uPackage
    simp [hp, h]

theorem uVariable_post (u : Universe) (n : Name) :
    findVariableId (uVariable u n).2 n = some (uVariable u n).1 := by
  unfold uVariable uPackage
  rcases hp : lookupA u.packages n.package with _ | p
  · simp only [hp]
    simp only [show lookupA (emptyPackage n.package).vars n.name = (none : Option NodeId)
      from rfl]
    unfold findVariableId
    simp [lookupA_insertA_self]
  · simp only [hp]
    rcases ht : lookupA p.vars n.name with _ | i
    · simp only [ht]
      unfold findVariableId
      simp [lookupA_insertA_self]
    · simp only [ht]
      unfold findVariableId
      simp [hp, ht]

theorem uConstant_found {u : Universe} {n : Name} {i : NodeId}
    (h : findConstantId u n = some i) : uConstant u n = (i, u) := by
  unfold findConstantId at h
  rcases hp : lookupA u.packages n.package with _ | p
  · rw [hp] at h; exact absurd h (by simp)
  · rw [hp] at h
    simp only at h
    unfold uConstant uPackage
    simp [hp, h]

theorem uConstant_post (u : Universe) (n : Name) :
    findConstantId (uConstant u n).2 n = some (uConstant u n).1 := by
  unfold uConstant uPackage
  rcases hp : lookupA u.packages n.package with _ | p
  · simp only [hp]
    simp only [show lookupA (emptyPackage n.package).consts n.name = (none : Option NodeId)
      from rfl]
    unfold findConstantId
    simp [lookupA_insertA_self]
  · simp only [hp]
    rcases ht : lookupA p.consts n.name with _ | i
    · simp only [ht]
      unfold findConstantId
      simp [lookupA_insertA_self]
    · simp only [ht]
      unfold findConstantId
      simp [hp, ht]

theorem uPackage_idem (u : Universe) (s : String) :
    uPackage (uPackage u s).2 s = uPackage u s := by
  unfold uPackage
  rcases hp : lookupA u.packages s with _ | p
  · simp [hp, lookupA_insertA_self]
  · simp [hp]

/-- Evaluation of Universe.Type when the package record does not exist yet
and the name does not hit the builtin table: a marker package and a marker
node are created. -/
theorem uType_freshPkg (u : Universe) (n : Name)
    (hp : lookupA u.packages n.package = none)
    (hb : ¬ n.package = "" ∨ lookupA builtinsTypes n.name = none) :
    uType u n =
      (u.nextId,
       ⟨u.nextId + 1, (u.nextId, mkMarkerNode n) :: u.nodes,
        insertA u.packages n.package
          { emptyPackage n.package with types := [(n.name, u.nextId)] }⟩) := by
  have hbv : (if (emptyPackage n.package).path = "" then lookupA builtinsTypes n.name
      else none) = none := by
    rcases hb with h | h
    · simp [emptyPackage, h]
    · by_cases hz : n.package = "" <;> simp [emptyPackage, hz, h]
  unfold uType uPackage
  simp only [hp]
  simp only [show lookupA (emptyPackage n.package).types n.name = (none : Option NodeId)
    from rfl, hbv]
  simp only [insertA_insertA]
  simp [emptyPackage, mkMarkerNode, insertA]

/-- Evaluation of Universe.Type when the package record does not exist yet
(so it must be the builtin pseudo-package path) and the name hits the
builtin table: the shared builtin node is returned and no node is
allocated. -/
theorem uType_freshPkg_builtin (u : Universe) (bn : String) (i : NodeId)
    (hp : lookupA u.packages "" = none)
    (hb : lookupA builtinsTypes bn = some i) :
    uType u ⟨"", bn, ""⟩ =
      (i, ⟨u.nextId, u.nodes,
           insertA u.packages "" { emptyPackage "" with types := [(bn, i)] }⟩) := by
  unfold uType uPackage
  simp only [hp]
  simp only [show lookupA (emptyPackage "").types bn = (none : Option NodeId) from rfl,
    show (emptyPackage "").path = "" from rfl, if_pos rfl, hb]
  simp only [insertA_insertA]
  simp [emptyPackage, insertA]

/-! ## Single-branch unfolding equations for walkType (each holds by rfl,
so each right-hand side is definitionally the branch the source executes) -/

theorem walkType_named_eq (tbl : CTable) (env : TCEnv) (fuel : Nat) (u : Universe)
    (useName : Option Name) (q : String) :
    walkType tbl env (fuel + 1) u useName (TCType.named q) =
      match lookupA env q with
      | Option.some d =>
        match d.underlying with
        | TCType.named _ =>
          walkAliasF tbl (walkType tbl env fuel) u (tcNameToName q) d.underlying d.methods
        | TCType.basic _ =>
          walkAliasF tbl (walkType tbl env fuel) u (tcNameToName q) d.underlying d.methods
        | TCType.map _ _ =>
          walkAliasF tbl (walkType tbl env fuel) u (tcNameToName q) d.underlying d.methods
        | TCType.slice _ =>
          walkAliasF tbl (walkType tbl env fuel) u (tcNameToName q) d.underlying d.methods
        | _ =>
          walkFlattenF tbl (walkType tbl env fuel) u (tcNameToName q) d.underlying d.methods
      | Option.none =>
        let iu := uType u (tcNameToName q)
        if (getNode iu.2 iu.1).kind = Kind.Unknown then
          some (iu.1, setNode iu.2 iu.1 (fun nd => { nd with kind := Kind.Unsupported }))
        else some iu := rfl

theorem walkType_struct_eq (tbl : CTable) (env : TCEnv) (fuel : Nat) (u : Universe)
    (useName : Option Name) (fields : TCFields) :
    walkType tbl env (fuel + 1) u useName (TCType.struct fields) =
      (let iu := uType u (walkTypeName useName (TCType.struct fields))
       if (getNode iu.2 iu.1).kind = Kind.Unknown then
         match walkFieldsF tbl (walkType tbl env fuel)
             (setNode iu.2 iu.1 (fun nd => { nd with kind := Kind.Struct })) iu.1 fields with
         | Option.none => none
         | Option.some u2 => some (iu.1, u2)
       else some iu) := rfl

theorem walkType_pointer_eq (tbl : CTable) (env : TCEnv) (fuel : Nat) (u : Universe)
    (useName : Option Name) (e : TCType) :
    walkType tbl env (fuel + 1) u useName (TCType.pointer e) =
      (let iu := uType u (walkTypeName useName (TCType.pointer e))
       if (getNode iu.2 iu.1).kind = Kind.Unknown then
         match walkType tbl env fuel
             (setNode iu.2 iu.1 (fun nd => { nd with kind := Kind.Pointer })) none e with
         | Option.none => none
         | Option.some (j, u2) =>
           some (iu.1, setNode u2 iu.1 (fun nd => { nd with elem := some j }))
       else some iu) := rfl

theorem walkType_basic_eq (tbl : CTable) (env : TCEnv) (fuel : Nat) (u : Universe)
    (useName : Option Name) (bn : String) :
    walkType tbl env (fuel + 1) u useName (TCType.basic bn) =
      (let iu := uType u ⟨"", bn, ""⟩
       if (getNode iu.2 iu.1).kind = Kind.Unknown then
         some (iu.1, setNode iu.2 iu.1 (fun nd => { nd with kind := Kind.Unsupported }))
       else some iu) := rfl

/-- The memoization lemma behind walkType: whenever the node registered for
the Name a branch resolves already has a Kind other than Unknown, walkType
returns exactly that node and leaves the Universe unchanged. -/
theorem walkType_memo (tbl : CTable) (env : TCEnv) (fuel : Nat)
    (u : Universe) (useName : Option Name) (t : TCType) (i : NodeId)
    (h1 : findTypeId u (walkTypeName useName t) = some i)
    (h2 : ¬ (getNode u i).kind = Kind.Unknown) :
    walkType tbl env (fuel + 1) u useName t = some (i, u) := by
  have hu : uType u (walkTypeName useName t) = (i, u) := uType_found h1
  cases t with
  | basic bn => simp [walkType, hu, h2]
  | named q =>
    rcases henv : lookupA env q with _ | d
    · simp [walkType, henv, hu, h2]
    · cases hd : d.underlying <;>
        simp_all [walkType, henv, walkAliasF, walkFlattenF, hu, h2]
  | struct fields => simp [walkType, hu, h2]
  | map k v => simp [walkType, hu, h2]
  | pointer e => simp [walkType, hu, h2]
  | slice e => simp [walkType, hu, h2]
  | array len e => simp [walkType, hu, h2]
  | chan dir e => simp [walkType, hu, h2]
  | signature r ps rs vd => simp [walkType, hu, h2]
  | tcInterface ms => simp [walkType, hu, h2]
  | unrecognized descr => simp [walkType, hu, h2]

/-! ## Claim theorems -/

/-- C1: a struct type with a field whose type is a pointer back to the
struct itself walks to completion (the fuelled walk succeeds), yielding a
Struct-kind node whose Member for that field has a Pointer-kind Type whose
Elem is reference-equal (the identical arena id) to the struct's own node.
The name hypotheses only pin down how the oracle's descriptions parse: the
qualified name splits into a non-empty package and a local name, and the
pointer description is anonymous and hits no builtin. -/
theorem walkType_selfref_cycle (pkgS tnameS fld qname : String) (pos : Pos)
    (h1 : tcNameToName qname = ⟨pkgS, tnameS, ""⟩)
    (h2 : ¬ pkgS = "")
    (h3 : lookupA builtinsTypes ("*" ++ qname) = none)
    (h4 : tcNameToName ("*" ++ qname) = ⟨"", "*" ++ qname, ""⟩) :
    selfRefStructOk (walkType [] (c1Env fld qname pos)
      4 initUniverse none (TCType.named qname)) := by
  have h2s : ¬ ("" = pkgS) := fun hEq => h2 hEq.symm
  have eA : uType initUniverse ⟨pkgS, tnameS, ""⟩ = (15, c1U1 pkgS tnameS) := by
    rw [uType_freshPkg _ _ (by rfl) (Or.inl h2)]
    rfl
  have eMemo : walkType [] (c1Env fld qname pos) 1 (c1U3k pkgS tnameS qname) none
      (TCType.named qname) = some (15, c1U3k pkgS tnameS qname) := by
    apply walkType_memo
    · rw [show walkTypeName none (TCType.named qname) = tcNameToName qname from rfl, h1]
      simp [findTypeId, c1U3k, c1P1, emptyPackage, lookupA]
    · intro hbad
      rw [show getNode (c1U3k pkgS tnameS qname) 15 =
        mkNode2 ⟨pkgS, tnameS, ""⟩ Kind.Struct from rfl] at hbad
      simp [mkNode2, defNode] at hbad
  have eP : uType (c1U2 pkgS tnameS) ⟨"", "*" ++ qname, ""⟩ = (16, c1U3 pkgS tnameS qname) := by
    have hp : lookupA (c1U2 pkgS tnameS).packages "" = none := by
      simp [c1U2, lookupA, h2s]
    rw [uType_freshPkg _ _ hp (Or.inr h3)]
    simp only [c1U2, c1U3, c1P0, mkMarkerNode]
    rw [show insertA [(pkgS, c1P1 pkgS tnameS)] ""
      { emptyPackage "" with types := [("*" ++ qname, 16)] } =
      [(pkgS, c1P1 pkgS tnameS), ("", { emptyPackage "" with types := [("*" ++ qname, 16)] })]
      from by simp [insertA, h2s]]
  have e4 : walkType [] (c1Env fld qname pos) 2 (c1U2 pkgS tnameS) none
      (TCType.pointer (TCType.named qname)) = some (16, c1U4 pkgS tnameS qname) := by
    rw [show (2 : Nat) = 1 + 1 from rfl, walkType_pointer_eq]
    have hpn : walkTypeName none (TCType.pointer (TCType.named qname)) =
        (⟨"", "*" ++ qname, ""⟩ : Name) := by
      rw [show walkTypeName none (TCType.pointer (TCType.named qname)) =
        tcNameToName (tcString (TCType.pointer (TCType.named qname))) from rfl]
      simp only [tcString]
      exact h4
    simp only [hpn, eP]
    rw [show getNode (c1U3 pkgS tnameS qname) 16 = mkMarkerNode ⟨"", "*" ++ qname, ""⟩ from rfl]
    rw [if_pos (show (mkMarkerNode ⟨"", "*" ++ qname, ""⟩).kind = Kind.Unknown from rfl)]
    rw [show setNode (c1U3 pkgS tnameS qname) 16
      (fun nd => { nd with kind := Kind.Pointer }) = c1U3k pkgS tnameS qname from rfl]
    rw [eMemo]
    rfl
  have e3 : walkType [] (c1Env fld qname pos) 3 (c1U1 pkgS tnameS)
      (some ⟨pkgS, tnameS, ""⟩) (TCType.struct (c1F fld qname pos)) =
      some (15, c1U5 pkgS tnameS fld qname) := by
    rw [show (3 : Nat) = 2 + 1 from rfl, walkType_struct_eq]
    rw [show walkTypeName (some ⟨pkgS, tnameS, ""⟩) (TCType.struct (c1F fld qname pos)) =
      (⟨pkgS, tnameS, ""⟩ : Name) from rfl]
    have eL : uType (c1U1 pkgS tnameS) ⟨pkgS, tnameS, ""⟩ = (15, c1U1 pkgS tnameS) := by
      apply uType_found
      simp [findTypeId, c1U1, c1P1, emptyPackage, lookupA]
    simp only [eL]
    rw [show getNode (c1U1 pkgS tnameS) 15 = mkMarkerNode ⟨pkgS, tnameS, ""⟩ from rfl]
    rw [if_pos (show (mkMarkerNode ⟨pkgS, tnameS, ""⟩).kind = Kind.Unknown from rfl)]
    rw [show setNode (c1U1 pkgS tnameS) 15
      (fun nd => { nd with kind := Kind.Struct }) = c1U2 pkgS tnameS from rfl]
    rw [show c1F fld qname pos = TCFields.cons fld false "" pos
      (TCType.pointer (TCType.named qname)) TCFields.nil from rfl]
    simp only [walkFieldsF]
    rw [e4]
    rfl
  have e2 : walkFlattenF [] (walkType [] (c1Env fld qname pos) 3) initUniverse
      ⟨pkgS, tnameS, ""⟩ (TCType.struct (c1F fld qname pos)) TCMethods.nil =
      some (15, c1U5 pkgS tnameS fld qname) := by
    unfold walkFlattenF
    simp only [eA]
    rw [show getNode (c1U1 pkgS tnameS) 15 = mkMarkerNode ⟨pkgS, tnameS, ""⟩ from rfl]
    rw [if_pos (show (mkMarkerNode ⟨pkgS, tnameS, ""⟩).kind = Kind.Unknown from rfl)]
    rw [e3]
    rfl
  rw [show (4 : Nat) = 3 + 1 from rfl, walkType_named_eq]
  rw [show lookupA (c1Env fld qname pos) qname = some ⟨TCType.struct (c1F fld qname pos),
    TCMethods.nil⟩ from by simp [c1Env, lookupA]]
  rw [h1]
  simp only []
  rw [show c1F fld qname pos = TCFields.cons fld false "" pos
    (TCType.pointer (TCType.named qname)) TCFields.nil from rfl] at e2 ⊢
  rw [e2]
  constructor
  · rfl
  · rw [show (getNode (c1U5 pkgS tnameS fld qname) 15).members = [c1M fld] from rfl]
    exact ⟨rfl, rfl⟩

/-- Witness for C1 at the concrete self-referential struct pkg.T. -/
theorem walkType_selfref_cycle_witness :
    (tcNameToName "pkg.T" = ⟨"pkg", "T", ""⟩ ∧ ¬ ("pkg" : String) = "" ∧
     lookupA builtinsTypes ("*" ++ "pkg.T") = none ∧
     tcNameToName ("*" ++ "pkg.T") = ⟨"", "*" ++ "pkg.T", ""⟩) ∧
    selfRefStructOk (walkType [] (c1Env "Next" "pkg.T" ⟨"t.go", 3⟩)
      4 initUniverse none (TCType.named "pkg.T")) :=
  ⟨⟨by decide, by decide, by decide, by decide⟩,
   walkType_selfref_cycle "pkg" "T" "Next" "pkg.T" ⟨"t.go", 3⟩
     (by decide) (by decide) (by decide) (by decide)⟩

/-- C2: a named type over an anonymous struct (type Foo struct with an int
field) walks to exactly one new node in the Universe, at the named type's
identity, with Kind Struct directly — no Alias node and no separate
anonymous-struct node is created (the arena grows by exactly one id). -/
theorem walkType_flatten_named (pkgS tnameS fldN qname : String) (pos : Pos)
    (h1 : tcNameToName qname = ⟨pkgS, tnameS, ""⟩)
    (h2 : ¬ pkgS = "") :
    flattenOk pkgS tnameS (walkType [] (c2Env fldN qname pos)
      4 initUniverse none (TCType.named qname)) := by
  have h2s : ¬ ("" = pkgS) := fun hEq => h2 hEq.symm
  have eA : uType initUniverse ⟨pkgS, tnameS, ""⟩ = (15, c1U1 pkgS tnameS) := by
    rw [uType_freshPkg _ _ (by rfl) (Or.inl h2)]
    rfl
  have eB : walkType [] (c2Env fldN qname pos) 2 (c1U2 pkgS tnameS) none
      (TCType.basic "int") = some (4, c2U3 pkgS tnameS) := by
    rw [show (2 : Nat) = 1 + 1 from rfl, walkType_basic_eq]
    have hp : lookupA (c1U2 pkgS tnameS).packages "" = none := by
      simp [c1U2, lookupA, h2s]
    rw [uType_freshPkg_builtin _ _ _ hp (by rfl)]
    rw [show insertA (c1U2 pkgS tnameS).packages "" { emptyPackage "" with types := [("int", 4)] } =
      [(pkgS, c1P1 pkgS tnameS), ("", c2P0)] from by simp [c1U2, c2P0, insertA, h2s]]
    simp only []
    rw [show getNode ⟨(c1U2 pkgS tnameS).nextId, (c1U2 pkgS tnameS).nodes,
      [(pkgS, c1P1 pkgS tnameS), ("", c2P0)]⟩ 4 = bNode "int" from rfl]
    rw [if_neg (show ¬ (bNode "int").kind = Kind.Unknown from by simp [bNode, defNode])]
    rfl
  have e3 : walkType [] (c2Env fldN qname pos) 3 (c1U1 pkgS tnameS)
      (some ⟨pkgS, tnameS, ""⟩) (TCType.struct (c2F fldN pos)) =
      some (15, c2U4 pkgS tnameS fldN) := by
    rw [show (3 : Nat) = 2 + 1 from rfl, walkType_struct_eq]
    rw [show walkTypeName (some ⟨pkgS, tnameS, ""⟩) (TCType.struct (c2F fldN pos)) =
      (⟨pkgS, tnameS, ""⟩ : Name) from rfl]
    have eL : uType (c1U1 pkgS tnameS) ⟨pkgS, tnameS, ""⟩ = (15, c1U1 pkgS tnameS) := by
      apply uType_found
      simp [findTypeId, c1U1, c1P1, emptyPackage, lookupA]
    simp only [eL]
    rw [show getNode (c1U1 pkgS tnameS) 15 = mkMarkerNode ⟨pkgS, tnameS, ""⟩ from rfl]
    rw [if_pos (show (mkMarkerNode ⟨pkgS, tnameS, ""⟩).kind = Kind.Unknown from rfl)]
    rw [show setNode (c1U1 pkgS tnameS) 15
      (fun nd => { nd with kind := Kind.Struct }) = c1U2 pkgS tnameS from rfl]
    rw [show c2F fldN pos = TCFields.cons fldN false "" pos
      (TCType.basic "int") TCFields.nil from rfl]
    simp only [walkFieldsF]
    rw [eB]
    rfl
  have e2 : walkFlattenF [] (walkType [] (c2Env fldN qname pos) 3) initUniverse
      ⟨pkgS, tnameS, ""⟩ (TCType.struct (c2F fldN pos)) TCMethods.nil =
      some (15, c2U4 pkgS tnameS fldN) := by
    unfold walkFlattenF
    simp only [eA]
    rw [show getNode (c1U1 pkgS tnameS) 15 = mkMarkerNode ⟨pkgS, tnameS, ""⟩ from rfl]
    rw [if_pos (show (mkMarkerNode ⟨pkgS, tnameS, ""⟩).kind = Kind.Unknown from rfl)]
    rw [e3]
    rfl
  rw [show (4 : Nat) = 3 + 1 from rfl, walkType_named_eq]
  rw [show lookupA (c2Env fldN qname pos) qname = some ⟨TCType.struct (c2F fldN pos),
    TCMethods.nil⟩ from by simp [c2Env, lookupA]]
  rw [h1]
  simp only []
  rw [show c2F fldN pos = TCFields.cons fldN false "" pos
    (TCType.basic "int") TCFields.nil from rfl] at e2 ⊢
  rw [e2]
  refine ⟨rfl, rfl, rfl, ?_⟩
  rw [show lookupA (c2U4 pkgS tnameS fldN).packages pkgS = some (c1P1 pkgS tnameS)
    from by simp [c2U4, lookupA]]
  rfl

/-- Witness for C2 at the concrete flattened named struct pkg.Foo. -/
theorem walkType_flatten_named_witness :
    (tcNameToName "pkg.Foo" = ⟨"pkg", "Foo", ""⟩ ∧ ¬ ("pkg" : String) = "") ∧
    flattenOk "pkg" "Foo" (walkType [] (c2Env "N" "pkg.Foo" ⟨"f.go", 4⟩)
      4 initUniverse none (TCType.named "pkg.Foo")) :=
  ⟨⟨by decide, by decide⟩,
   walkType_flatten_named "pkg" "Foo" "N" "pkg.Foo" ⟨"f.go", 4⟩ (by decide) (by decide)⟩

/-- C3: for every Name and Universe, a second call to any of the
get-or-create accessors (Type, Function, Variable, Constant, and Package)
returns exactly the result of the first call: the identical node id
(reference-equal node, never a copy) and the unchanged Universe. -/
theorem accessors_idempotent (u : Universe) (n : Name) (path : String) :
    uType (uType u n).2 n = uType u n ∧
    uFunction (uFunction u n).2 n = uFunction u n ∧
    uVariable (uVariable u n).2 n = uVariable u n ∧
    uConstant (uConstant u n).2 n = uConstant u n ∧
    uPackage (uPackage u path).2 path = uPackage u path := by
  refine ⟨?_, ?_, ?_, ?_, uPackage_idem u path⟩
  · exact (uType_found (uType_post u n)).trans rfl
  · exact (uFunction_found (uFunction_post u n)).trans rfl
  · exact (uVariable_found (uVariable_post u n)).trans rfl
  · exact (uConstant_found (uConstant_post u n)).trans rfl

/-- C4: whenever the node registered for the Name a walkType branch
resolves (the override, the derived description, the bare primitive name
for Basic, the re-derived identity for Named) already has a Kind other
than Unknown, every branch of walkType returns exactly that node and
leaves the whole Universe unchanged: no Kind and no populated structural
field of any node is modified (first writer wins). -/
theorem walkType_first_writer_wins (tbl : CTable) (env : TCEnv) (fuel : Nat)
    (u : Universe) (useName : Option Name) (t : TCType) (i : NodeId)
    (h1 : findTypeId u (walkTypeName useName t) = some i)
    (h2 : ¬ (getNode u i).kind = Kind.Unknown) :
    walkType tbl env (fuel + 1) u useName t = some (i, u) :=
  walkType_memo tbl env fuel u useName t i h1 h2

/-- Witness for C4 at a concrete resolved node. -/
theorem walkType_first_writer_wins_witness :
    findTypeId c4Universe (walkTypeName none (TCType.named "p.T")) = some 15 ∧
    ¬ (getNode c4Universe 15).kind = Kind.Unknown ∧
    walkType [] [] 1 c4Universe none (TCType.named "p.T") = some (15, c4Universe) :=
  ⟨by decide, by decide,
   walkType_first_writer_wins [] [] 0 c4Universe none (TCType.named "p.T") 15
     (by decide) (by decide)⟩

/-- C9 claims every node family is created with Kind Unknown; the Function
accessor refutes it: a fresh function node is created with Kind
DeclarationOf (types/types.go, line 160). -/
theorem function_marker_not_unknown :
    (getNode (uFunction initUniverse ⟨"p", "F", ""⟩).2
        (uFunction initUniverse ⟨"p", "F", ""⟩).1).kind = Kind.DeclarationOf := by
  decide

/-- C9 amended: a get-or-create accessor allocates a fresh node the first
time a name is referenced (in a package not yet present, and not hitting
the shared builtin table): Type markers are created with Kind Unknown,
while Function, Variable and Constant markers are created with Kind
DeclarationOf already set; all are refined in place afterwards. -/
theorem nodes_created_as_markers (u : Universe) (n : Name)
    (hp : lookupA u.packages n.package = none)
    (hb : n.package = "" → lookupA builtinsTypes n.name = none) :
    ((uType u n).1 = u.nextId ∧
      (getNode (uType u n).2 (uType u n).1).kind = Kind.Unknown) ∧
    ((uFunction u n).1 = u.nextId ∧
      (getNode (uFunction u n).2 (uFunction u n).1).kind = Kind.DeclarationOf) ∧
    ((uVariable u n).1 = u.nextId ∧
      (getNode (uVariable u n).2 (uVariable u n).1).kind = Kind.DeclarationOf) ∧
    ((uConstant u n).1 = u.nextId ∧
      (getNode (uConstant u n).2 (uConstant u n).1).kind = Kind.DeclarationOf) := by
  constructor
  · unfold uType uPackage
    simp only [hp]
    have hbv : (if (emptyPackage n.package).path = "" then lookupA builtinsTypes n.name
        else none) = none := by
      by_cases hz : n.package = ""
      · simp [emptyPackage, hz, hb hz]
      · simp [emptyPackage, hz]
    simp only [show lookupA (emptyPackage n.package).types n.name = (none : Option NodeId)
      from rfl, hbv]
    simp [getNode, lookupN, defNode]
  refine ⟨?_, ?_, ?_⟩
  · unfold uFunction uPackage
    simp only [hp]
    simp only [show lookupA (emptyPackage n.package).functions n.name =
      (none : Option NodeId) from rfl]
    simp [getNode, lookupN, defNode]
  · unfold uVariable uPackage
    simp only [hp]
    simp only [show lookupA (emptyPackage n.package).vars n.name =
      (none : Option NodeId) from rfl]
    simp [getNode, lookupN, defNode]
  · unfold uConstant uPackage
    simp only [hp]
    simp only [show lookupA (emptyPackage n.package).consts n.name =
      (none : Option NodeId) from rfl]
    simp [getNode, lookupN, defNode]

/-- Witness for the amended C9 at a concrete fresh name. -/
theorem nodes_created_as_markers_witness :
    (lookupA initUniverse.packages "p" = none ∧
      ("p" = "" → lookupA builtinsTypes "X" = none)) ∧
    ((uType initUniverse ⟨"p", "X", ""⟩).1 = initUniverse.nextId ∧
      (getNode (uType initUniverse ⟨"p", "X", ""⟩).2
        (uType initUniverse ⟨"p", "X", ""⟩).1).kind = Kind.Unknown) ∧
    ((uFunction initUniverse ⟨"p", "X", ""⟩).1 = initUniverse.nextId ∧
      (getNode (uFunction initUniverse ⟨"p", "X", ""⟩).2
        (uFunction initUniverse ⟨"p", "X", ""⟩).1).kind = Kind.DeclarationOf) ∧
    ((uVariable initUniverse ⟨"p", "X", ""⟩).1 = initUniverse.nextId ∧
      (getNode (uVariable initUniverse ⟨"p", "X", ""⟩).2
        (uVariable initUniverse ⟨"p", "X", ""⟩).1).kind = Kind.DeclarationOf) ∧
    ((uConstant initUniverse ⟨"p", "X", ""⟩).1 = initUniverse.nextId ∧
      (getNode (uConstant initUniverse ⟨"p", "X", ""⟩).2
        (uConstant initUniverse ⟨"p", "X", ""⟩).1).kind = Kind.DeclarationOf) :=
  ⟨⟨by decide, by decide⟩,
   nodes_created_as_markers initUniverse ⟨"p", "X", ""⟩ (by decide) (by decide)⟩

/-- C10: in the shared builtin pseudo-package (empty package path), the
names byte, uint8 and int8 all resolve to the same shared node — the same
arena id, hence reference-equal — whose Name.Name is "byte" and whose Kind
is Builtin. -/
theorem builtin_byte_conflation :
    c10R1.1 = c10R2.1 ∧ c10R2.1 = c10R3.1 ∧
    (getNode c10R3.2 c10R1.1).name.name = "byte" ∧
    (getNode c10R3.2 c10R1.1).kind = Kind.Builtin := by
  decide

/-- C5 claims a package-not-found resolution failure is a fatal error when
the package was explicitly requested by the user; the code refutes it: on
an unresolvable fresh directory, importPackage with userRequested true
returns no error (nil package, nil error), so AddDir succeeds silently. -/
theorem importPackage_notfound_swallowed_even_requested :
    (importPackage c5AddDir trivCheck emptyBState "nosuch" true).2 = Except.ok none ∧
    (addDirApi c5AddDir trivCheck emptyBState "nosuch").2 = none :=
  ⟨rfl, rfl⟩

/-- C5 amended: when a directory has not been parsed yet, an addDir
failure whose message matches the package-not-found shape is swallowed
(nil package, no error) regardless of the user-requested flag, and every
other addDir failure is returned to the caller. -/
theorem importPackage_notfound_policy (addDirFn : AddDirFn) (checkFn : CheckFn)
    (b b2 : BState) (dir msg : String) (userRequested : Bool)
    (hparsed : lookupA b.parsed (importPkgPath b dir) = none)
    (hadd : addDirFn dir userRequested b = (b2, some msg)) :
    (isErrPackageNotFound msg = true →
      importPackage addDirFn checkFn b dir userRequested = (b2, Except.ok none)) ∧
    (isErrPackageNotFound msg = false →
      importPackage addDirFn checkFn b dir userRequested = (b2, Except.error msg)) := by
  constructor <;> intro hmsg <;>
    (unfold importPackage; simp only []; rw [hparsed]; simp only []; rw [hadd]; simp [hmsg])

/-- Witness for the amended C5: the two outcome shapes at concrete inputs. -/
theorem importPackage_notfound_policy_witness :
    (lookupA emptyBState.parsed (importPkgPath emptyBState "x") = none ∧
     c5AddDir "x" false emptyBState =
       (emptyBState, some "unable to import \"x\": no buildable sources") ∧
     c5AddDirOther "x" true emptyBState =
       (emptyBState, some "while loading x: boom")) ∧
    importPackage c5AddDir trivCheck emptyBState "x" false = (emptyBState, Except.ok none) ∧
    importPackage c5AddDirOther trivCheck emptyBState "x" true =
      (emptyBState, Except.error "while loading x: boom") :=
  ⟨⟨rfl, rfl, rfl⟩,
   (importPackage_notfound_policy c5AddDir trivCheck emptyBState emptyBState "x"
      "unable to import \"x\": no buildable sources" false rfl rfl).1 (by decide),
   (importPackage_notfound_policy c5AddDirOther trivCheck emptyBState emptyBState "x"
      "while loading x: boom" true rfl rfl).2 (by decide)⟩

/-- C6: typeCheckPackage returns a cached completed result immediately and
without touching the state; a request for a package whose stored entry is
the nil in-progress sentinel yields the circular-dependency error instead
of recursing; and on fresh work the sentinel is stored before the oracle
runs, so an oracle whose import callback re-enters typeCheckPackage on the
same package observes the sentinel and gets the circular-dependency error. -/
theorem typeCheckPackage_sentinel (f : CheckFn) (b : BState) (p : String)
    (pkg : TCPkg) (files : List ParsedFile) :
    (lookupA b.typeChecked p = some (some pkg) →
      typeCheckPackage f b p = (b, some pkg, none)) ∧
    (lookupA b.typeChecked p = some none →
      typeCheckPackage f b p =
        (b, none, some ("circular dependency for \"" ++ p ++ "\""))) ∧
    (lookupA b.typeChecked p = none → lookupA b.parsed p = some files →
      ∃ b2, typeCheckPackage c6Reentrant b p =
        (b2, none, some ("circular dependency for \"" ++ p ++ "\""))) := by
  refine ⟨fun h => ?_, fun h => ?_, fun h1 h2 => ?_⟩
  · unfold typeCheckPackage
    rw [h]
  · unfold typeCheckPackage
    rw [h]
  · refine ⟨{ b with typeChecked := insertA (insertA b.typeChecked p none) p none }, ?_⟩
    unfold typeCheckPackage
    rw [h1]
    simp only []
    rw [h2]
    simp only [c6Reentrant]
    unfold typeCheckPackage
    rw [lookupA_insertA_self]

/-- Witness for C6: the three behaviours at concrete states. -/
theorem typeCheckPackage_sentinel_witness :
    (lookupA c6Cached.typeChecked "x" = some (some c6Pkg) ∧
     lookupA c6InProgress.typeChecked "x" = some none ∧
     lookupA c6Fresh.typeChecked "x" = none ∧
     lookupA c6Fresh.parsed "x" = some []) ∧
    typeCheckPackage trivCheck c6Cached "x" = (c6Cached, some c6Pkg, none) ∧
    typeCheckPackage trivCheck c6InProgress "x" =
      (c6InProgress, none, some ("circular dependency for \"x\"")) ∧
    ∃ b2, typeCheckPackage c6Reentrant c6Fresh "x" =
      (b2, none, some ("circular dependency for \"x\"")) :=
  ⟨⟨rfl, rfl, rfl, rfl⟩,
   (typeCheckPackage_sentinel trivCheck c6Cached "x" c6Pkg []).1 rfl,
   (typeCheckPackage_sentinel trivCheck c6InProgress "x" c6Pkg []).2.1 rfl,
   (typeCheckPackage_sentinel trivCheck c6Fresh "x" c6Pkg []).2.2 rfl rfl⟩

/-- C7 claims the returned Universe excludes the failed transitive package
"c"; the code refutes it: FindTypes succeeds on the scenario and the
returned Universe does contain a package record under "c" (the import
marker AddImports created), so the claimed exclusion check is false. -/
theorem findTypes_does_not_exclude_transitive : c7ExcludesC = false := by
  rfl

/-- C7 amended: FindTypes still succeeds when a transitively imported
package failed to resolve; the user-requested packages "a" and "b" come
back as populated records, while "c" is present only as an empty
import-marker record (no declared name, no types) and is never populated
or walked. -/
theorem findTypes_transitive_marker_only : c7MarkerOnly = true := by
  rfl

/-- C8: comment association through the (file, end line) index.  First
layout: a declaration at line L immediately preceded by a single comment
line — the index lookup at key (F, L-1) yields that comment group and the
declaration's CommentLines is exactly that line.  Second layout: a doc
block ending at line b, a blank line, a one-line comment at line b+2, and
the declaration at line b+3 — CommentLines is the one-liner and
SecondClosestCommentLines is the doc block's lines. -/
theorem comment_association (F text O D : String) (L a b : Nat)
    (hsingle : splitLines text = [text])
    (hO : splitLines O = [O]) :
    (lookupFL (indexComments F [(L - 1, L - 1, text)]) ⟨F, L - 1⟩ = some ⟨L - 1, text⟩ ∧
     (attachDeclComments (indexComments F [(L - 1, L - 1, text)]) ⟨F, L⟩).1 = [text]) ∧
    ((attachDeclComments (indexComments F [(a, b, D), (b + 2, b + 2, O)]) ⟨F, b + 3⟩).1
        = [O] ∧
     (attachDeclComments (indexComments F [(a, b, D), (b + 2, b + 2, O)]) ⟨F, b + 3⟩).2
        = splitLines D) := by
  have e1 : b + 3 - 1 = b + 2 := by omega
  have e2 : b + 2 - 2 = b := by omega
  have ne1 : ¬ (b + 2 = b) := by omega
  constructor
  · constructor
    · simp [indexComments, insertFL, lookupFL]
    · simp [indexComments, insertFL, attachDeclComments, priorCommentLines, lookupFL, hsingle]
  · have htbl : indexComments F [(a, b, D), (b + 2, b + 2, O)] =
        [(⟨F, b⟩, ⟨a, D⟩), (⟨F, b + 2⟩, ⟨b + 2, O⟩)] := by
      simp [indexComments, insertFL, FileLine.mk.injEq, ne1]
    rw [htbl]
    constructor
    · simp [attachDeclComments, priorCommentLines, lookupFL, e1, e2,
        FileLine.mk.injEq, ne1, hO]
    · simp [attachDeclComments, priorCommentLines, lookupFL, e1, e2,
        FileLine.mk.injEq, ne1, textOf]

/-- Witness for C8 at a concrete file layout: a doc block on lines 1-2, a
blank line 3, a one-line comment on line 4, the declaration on line 5; and
a declaration at line 10 directly preceded by its comment at line 9. -/
theorem comment_association_witness :
    (splitLines "c1" = ["c1"] ∧ splitLines "one" = ["one"]) ∧
    (lookupFL (indexComments "f.go" [(10 - 1, 10 - 1, "c1")]) ⟨"f.go", 10 - 1⟩ =
       some ⟨10 - 1, "c1"⟩ ∧
     (attachDeclComments (indexComments "f.go" [(10 - 1, 10 - 1, "c1")]) ⟨"f.go", 10⟩).1
       = ["c1"]) ∧
    ((attachDeclComments (indexComments "f.go" [(1, 2, "d1\nd2"), (2 + 2, 2 + 2, "one")])
        ⟨"f.go", 2 + 3⟩).1 = ["one"] ∧
     (attachDeclComments (indexComments "f.go" [(1, 2, "d1\nd2"), (2 + 2, 2 + 2, "one")])
        ⟨"f.go", 2 + 3⟩).2 = splitLines "d1\nd2") :=
  ⟨⟨by decide, by decide⟩,
   (comment_association "f.go" "c1" "one" "d1\nd2" 10 1 2 (by decide) (by decide)).1,
   (comment_association "f.go" "c1" "one" "d1\nd2" 10 1 2 (by decide) (by decide)).2⟩
